import Mathlib

/-!
Verification development for the deepresearcher pipeline.

This file gives a shallow embedding, in Lean 4, of the orchestration core of
the repository: the enumerations and data models of src/core/state.py, the
quality gate of src/utils/quality_system.py, the revision stage of
src/agents/revision_agent.py, the routing function of src/core/graph.py, the
section fan-out of src/agents/knowledge_retrieval_agent.py, and the
checkpoint store of src/utils/checkpoint.py.  External LLM and search calls
are modelled as oracle parameters; datetimes are modelled as natural-number
timestamps; Python floats are modelled as exact rationals.
-/

set_option maxHeartbeats 1000000

/-! ## Enumerations (src/core/state.py) -/

/-- AnalysisIntent enum from src/core/state.py. -/
inductive AnalysisIntent where
  | OVERVIEW
  | COMPARISON
  | CAUSAL_ANALYSIS
  | TREND_PREDICTION
  | PROS_CONS
  | SOLUTION_PROPOSAL
deriving DecidableEq, Repr

/-- The string value of each AnalysisIntent member. -/
def AnalysisIntent.value : AnalysisIntent → String
  | .OVERVIEW => "overview"
  | .COMPARISON => "comparison"
  | .CAUSAL_ANALYSIS => "causal_analysis"
  | .TREND_PREDICTION => "trend_prediction"
  | .PROS_CONS => "pros_cons"
  | .SOLUTION_PROPOSAL => "solution_proposal"

/-- The Python enum member name of each AnalysisIntent member. -/
def AnalysisIntent.memberName : AnalysisIntent → String
  | .OVERVIEW => "OVERVIEW"
  | .COMPARISON => "COMPARISON"
  | .CAUSAL_ANALYSIS => "CAUSAL_ANALYSIS"
  | .TREND_PREDICTION => "TREND_PREDICTION"
  | .PROS_CONS => "PROS_CONS"
  | .SOLUTION_PROPOSAL => "SOLUTION_PROPOSAL"

/-- Python AnalysisIntent(value): look a member up by its value string. -/
def AnalysisIntent.fromValue? (s : String) : Option AnalysisIntent :=
  if s = "overview" then some .OVERVIEW
  else if s = "comparison" then some .COMPARISON
  else if s = "causal_analysis" then some .CAUSAL_ANALYSIS
  else if s = "trend_prediction" then some .TREND_PREDICTION
  else if s = "pros_cons" then some .PROS_CONS
  else if s = "solution_proposal" then some .SOLUTION_PROPOSAL
  else none

/-- DomainCategory enum from src/core/state.py; values are the Chinese tags. -/
inductive DomainCategory where
  | AI
  | BUSINESS_MODEL
  | SUSTAINABILITY
  | SOCIAL_CHANGE
  | LIFE_SCIENCES
  | GLOBAL_AFFAIRS
  | GENERAL
deriving DecidableEq, Repr

/-- The string value of each DomainCategory member. -/
def DomainCategory.value : DomainCategory → String
  | .AI => "前沿科技与人工智能"
  | .BUSINESS_MODEL => "商业模式与市场动态"
  | .SUSTAINABILITY => "可持续发展与环境治理"
  | .SOCIAL_CHANGE => "社会变迁与文化趋势"
  | .LIFE_SCIENCES => "生命科学与公共健康"
  | .GLOBAL_AFFAIRS => "全球事务与未来治理"
  | .GENERAL => "通用"

/-- Python DomainCategory(value): look a member up by its value string. -/
def DomainCategory.fromValue? (s : String) : Option DomainCategory :=
  if s = "前沿科技与人工智能" then some .AI
  else if s = "商业模式与市场动态" then some .BUSINESS_MODEL
  else if s = "可持续发展与环境治理" then some .SUSTAINABILITY
  else if s = "社会变迁与文化趋势" then some .SOCIAL_CHANGE
  else if s = "生命科学与公共健康" then some .LIFE_SCIENCES
  else if s = "全球事务与未来治理" then some .GLOBAL_AFFAIRS
  else if s = "通用" then some .GENERAL
  else none

/-- ValidationStatus enum from src/core/state.py. -/
inductive ValidationStatus where
  | PENDING
  | IN_PROGRESS
  | VALIDATED
  | NEEDS_REVISION
  | FAILED
deriving DecidableEq, Repr

/-- The string value of each ValidationStatus member. -/
def ValidationStatus.value : ValidationStatus → String
  | .PENDING => "pending"
  | .IN_PROGRESS => "in_progress"
  | .VALIDATED => "validated"
  | .NEEDS_REVISION => "needs_revision"
  | .FAILED => "failed"

/-- Python ValidationStatus(value): look a member up by its value string. -/
def ValidationStatus.fromValue? (s : String) : Option ValidationStatus :=
  if s = "pending" then some .PENDING
  else if s = "in_progress" then some .IN_PROGRESS
  else if s = "validated" then some .VALIDATED
  else if s = "needs_revision" then some .NEEDS_REVISION
  else if s = "failed" then some .FAILED
  else none

/-- AgentName enum from src/core/state.py. -/
inductive AgentName where
  | COORDINATOR
  | UNDERSTANDING
  | STRUCTURING
  | KNOWLEDGE
  | WRITING
  | VALIDATION
  | REVISION
deriving DecidableEq, Repr

/-- The string value of each AgentName member. -/
def AgentName.value : AgentName → String
  | .COORDINATOR => "chief_coordinator_agent"
  | .UNDERSTANDING => "problem_understanding_agent"
  | .STRUCTURING => "report_structure_planning_agent"
  | .KNOWLEDGE => "knowledge_retrieval_agent"
  | .WRITING => "report_writing_agent"
  | .VALIDATION => "validation_agent"
  | .REVISION => "revision_agent"

/-- Python AgentName(value): look a member up by its value string. -/
def AgentName.fromValue? (s : String) : Option AgentName :=
  if s = "chief_coordinator_agent" then some .COORDINATOR
  else if s = "problem_understanding_agent" then some .UNDERSTANDING
  else if s = "report_structure_planning_agent" then some .STRUCTURING
  else if s = "knowledge_retrieval_agent" then some .KNOWLEDGE
  else if s = "report_writing_agent" then some .WRITING
  else if s = "validation_agent" then some .VALIDATION
  else if s = "revision_agent" then some .REVISION
  else none

/-! ## Pydantic models (src/core/state.py) -/

/-- AnalysisQuery model: domain plus analysis intent. -/
structure AnalysisQuery where
  domain : DomainCategory
  analysis_intent : AnalysisIntent
deriving DecidableEq, Repr

/-- The status literal of a report section. -/
inductive SectionStatus where
  | outlined
  | researching
  | drafted
  | polished
deriving DecidableEq, Repr

/-- The string tag of each section status literal. -/
def SectionStatus.value : SectionStatus → String
  | .outlined => "outlined"
  | .researching => "researching"
  | .drafted => "drafted"
  | .polished => "polished"

/-- Parse a section status literal string. -/
def SectionStatus.fromValue? (s : String) : Option SectionStatus :=
  if s = "outlined" then some .outlined
  else if s = "researching" then some .researching
  else if s = "drafted" then some .drafted
  else if s = "polished" then some .polished
  else none

/-- ReportSection model from src/core/state.py. -/
structure ReportSection where
  title : String
  key_questions : List String
  content : String
  sources : List String
  status : SectionStatus
deriving DecidableEq, Repr

/-- ReportStructure model from src/core/state.py. -/
structure ReportStructure where
  template_type : String
  sections : List ReportSection
  executive_summary_required : Bool
  recommendations_required : Bool
  target_length : Int
  length_tolerance : Int
deriving DecidableEq, Repr

/-! ## Word counting (src/utils/word_count.py) -/

/-- A character matched by the Chinese-character pattern of
count_chinese_characters (CJK unified ideographs and extension A). -/
def isCJKChar (c : Char) : Bool :=
  decide ((0x4e00 ≤ c.toNat ∧ c.toNat ≤ 0x9fff) ∨ (0x3400 ≤ c.toNat ∧ c.toNat ≤ 0x4dbf))

/-- A character matched by the ASCII alphanumeric class used for English
word runs. -/
def isAlnumAscii (c : Char) : Bool :=
  decide ((0x41 ≤ c.toNat ∧ c.toNat ≤ 0x5a) ∨ (0x61 ≤ c.toNat ∧ c.toNat ≤ 0x7a) ∨
    (0x30 ≤ c.toNat ∧ c.toNat ≤ 0x39))

/-- Count the maximal runs of ASCII alphanumeric characters, the matches of
the regex used by count_words for English words. -/
def countEnglishRuns : List Char → Bool → Nat
  | [], _ => 0
  | c :: rest, inWord =>
    if isAlnumAscii c then (if inWord then 0 else 1) + countEnglishRuns rest true
    else countEnglishRuns rest false

/-- count_words from src/utils/word_count.py: Chinese characters plus
English alphanumeric runs. -/
def count_words (s : String) : Nat :=
  (s.toList.filter isCJKChar).length + countEnglishRuns s.toList false

/-! ## Quality system (src/utils/quality_system.py) -/

/-- QualityMetrics from src/utils/quality_system.py.  Scores are modelled
as exact rationals; the creation timestamp as a natural number. -/
structure QualityMetrics where
  overall_score : ℚ
  detailed_scores : List (String × ℚ)
  major_issues : List String
  feedback : String
  word_count_accuracy : Bool
  actual_word_count : Nat
  evaluation_method : String
  timestamp : Nat
deriving DecidableEq, Repr

/-- QualityMetrics.is_high_quality: overall score at least 8.3. -/
def QualityMetrics.is_high_quality (m : QualityMetrics) : Bool :=
  decide (m.overall_score ≥ (8.3 : ℚ))

/-- QualityMetrics.is_acceptable_quality: score at least 8.0 and no major
issues. -/
def QualityMetrics.is_acceptable_quality (m : QualityMetrics) : Bool :=
  decide (m.overall_score ≥ (8.0 : ℚ)) && decide (m.major_issues.length = 0)

/-- should_report_pass_quality_check from src/utils/quality_system.py. -/
def should_report_pass_quality_check (quality_metrics : QualityMetrics) : Bool :=
  if quality_metrics.is_high_quality then true
  else if quality_metrics.is_acceptable_quality then true
  else false

/-- The outcome of parsing the LLM evaluation response
(_parse_evaluation_response), treated as an oracle input. -/
structure EvalParsed where
  overall_score : ℚ
  detailed_scores : List (String × ℚ)
  major_issues : List String
  feedback : String

/-- The strict ±5 percent word-count check of evaluate_report_async:
with no word limit the check is skipped and accuracy is true; otherwise
lower = int(word_limit * 0.95) and upper = int(word_limit * 1.05), both
modelled exactly (Nat division floors, as int() does on these products). -/
def word_count_accuracy_check (word_limit : Option Nat) (actual : Nat) : Bool :=
  match word_limit with
  | none => true
  | some w => decide (w * 95 / 100 ≤ actual) && decide (actual ≤ w * 105 / 100)

/-- evaluate_report_async (success path) from src/utils/quality_system.py:
the LLM call and response parsing are the oracle llm, taking the
evaluation method tag and the report; the word-count accuracy and the
actual word count are computed from the report itself. -/
def evaluate_report_quality (llm : String → String → EvalParsed) (report : String)
    (word_limit : Option Nat) (evaluation_method : String) (now : Nat) : QualityMetrics :=
  let parsed := llm evaluation_method report
  let actual := count_words report
  { overall_score := parsed.overall_score
    detailed_scores := parsed.detailed_scores
    major_issues := parsed.major_issues
    feedback := parsed.feedback
    word_count_accuracy := word_count_accuracy_check word_limit actual
    actual_word_count := actual
    evaluation_method := evaluation_method
    timestamp := now }

/-! ## Pipeline state (GlobalState of src/core/state.py)

The agent stages access the state through dict lookups with fallbacks;
fields the stages read through .get are modelled as options, with Python
truthiness made explicit where the code relies on it. -/

/-- A value stored in the quality_metrics mapping of the state. -/
inductive QVal where
  | num (q : ℚ)
  | nat (n : Nat)
  | str (s : String)
  | strList (l : List String)
  | bool (b : Bool)
  | numMap (m : List (String × ℚ))
  | time (t : Nat)
deriving DecidableEq, Repr

/-- GlobalState from src/core/state.py (agent-level model).  The structure
field of the Python TypedDict is named structure_ here because structure is
a Lean keyword; datetimes are natural-number timestamps. -/
structure GlobalState where
  user_query : String
  requirements : Option AnalysisQuery
  structure_ : Option ReportStructure
  draft_report : Option String
  final_report : Option String
  validation_status : ValidationStatus
  revision_count : Nat
  current_agent : AgentName
  active_section : Option String
  processed_sections : List String
  start_time : Option Nat
  last_updated : Option Nat
  error_message : Option String
  warnings : List String
  quality_metrics : List (String × QVal)
  processing_time : Option ℚ
  word_limit : Option Nat
deriving DecidableEq, Repr

/-- Python truthiness of an optional string: None and the empty string are
falsy. -/
def falsyStr : Option String → Bool
  | none => true
  | some s => s.isEmpty

/-- Python x or y on optional timestamps: the left operand when truthy
(datetimes are always truthy), the right one otherwise. -/
def pyOr : Option Nat → Option Nat → Option Nat
  | some x, _ => some x
  | none, b => b

/-- state.get("quality_metrics", ...).get("overall_score", 0), expecting a
numeric entry: missing or non-numeric entries yield the default 0. -/
def qmOverallScore (qm : List (String × QVal)) : ℚ :=
  match qm.lookup "overall_score" with
  | some (QVal.num q) => q
  | _ => 0

/-- Insert or overwrite one key of a string-keyed mapping, preserving the
insertion order of existing keys as Python dicts do. -/
def dictSet (d : List (String × QVal)) (k : String) (v : QVal) : List (String × QVal) :=
  if d.any (fun kv => kv.1 == k) then d.map (fun kv => if kv.1 == k then (k, v) else kv)
  else d ++ [(k, v)]

/-- Python left-to-right dict merge of an update list into a base dict. -/
def dictMerge (d : List (String × QVal)) (updates : List (String × QVal)) :
    List (String × QVal) :=
  updates.foldl (fun acc kv => dictSet acc kv.1 kv.2) d

/-- QualityMetrics.to_dict as state entries (timestamp already an
ISO-formatted scalar in the Python dict, here the time tag). -/
def QualityMetrics.to_dict (m : QualityMetrics) : List (String × QVal) :=
  [("overall_score", QVal.num m.overall_score),
   ("detailed_scores", QVal.numMap m.detailed_scores),
   ("major_issues", QVal.strList m.major_issues),
   ("feedback", QVal.str m.feedback),
   ("word_count_accuracy", QVal.bool m.word_count_accuracy),
   ("actual_word_count", QVal.nat m.actual_word_count),
   ("evaluation_method", QVal.str m.evaluation_method),
   ("timestamp", QVal.time m.timestamp)]

/-! ## Graph routing (src/core/graph.py) -/

/-- should_revision from src/core/graph.py: route after the validation
stage. -/
def should_revision (state : GlobalState) : String :=
  if state.validation_status = ValidationStatus.VALIDATED then "generate_report"
  else if state.validation_status = ValidationStatus.NEEDS_REVISION ∧
      state.revision_count < 3 then "revision"
  else "generate_report"

/-- The target list given to add_conditional_edges for the validation node
in create_graph. -/
def validation_conditional_targets : List String := ["revision", "generate_report"]

/-! ## Revision stage (src/agents/revision_agent.py) -/

/-- The external calls made by revision_node, as oracles:

evalQ is the LLM evaluation behind evaluate_report_quality, keyed by the
evaluation method tag and the report text; smartRevise is
_execute_smart_revisions (report, its pre-revision metrics, the word limit
and the revision count); adjust is the corrective call_llm_sync pass of the
word-count adjustment, already stripped by rm_only_think. -/
structure RevisionOracles where
  evalQ : String → String → EvalParsed
  smartRevise : String → QualityMetrics → Option Nat → Nat → String
  adjust : String → String

/-- revision_node from src/agents/revision_agent.py (non-raising path).

now models datetime.now() during this execution.  The f-string score
interpolations inside the log and warning messages are elided; the warning
text keeps the fixed parts of the Python messages.  In the Python code the
word-count adjustment block rebinds the locals revised_report and
revised_quality_metrics, which are not read afterwards; the binding is kept
here to mirror the source. -/
def revision_node (o : RevisionOracles) (now : Nat) (state : GlobalState) : GlobalState :=
  let max_revisions := 3
  let current_revision_count := state.revision_count
  if current_revision_count ≥ max_revisions then
    -- 达到最大修订次数：强制设置为验证通过状态，避免无限循环
    { state with
      current_agent := AgentName.REVISION
      validation_status := ValidationStatus.VALIDATED
      warnings := state.warnings ++ ["已达到最大修订次数 3，停止修订"] }
  else if current_revision_count > 0 ∧
      state.validation_status ≠ ValidationStatus.NEEDS_REVISION then
    -- 重入保护
    { state with current_agent := AgentName.REVISION }
  else if falsyStr state.final_report then
    { state with
      current_agent := AgentName.REVISION
      error_message := some "无法修订报告：缺少最终报告"
      validation_status := ValidationStatus.FAILED
      last_updated := pyOr state.start_time state.last_updated }
  else if falsyStr state.error_message ∧
      state.validation_status = ValidationStatus.VALIDATED then
    -- 已经通过校验，直接返回
    state
  else
    let original_report := state.final_report.getD ""
    let original_score := qmOverallScore state.quality_metrics
    let current_quality_metrics :=
      evaluate_report_quality o.evalQ original_report state.word_limit "pre_revision" now
    let revised_report :=
      o.smartRevise original_report current_quality_metrics state.word_limit
        state.revision_count
    let revised_quality_metrics :=
      evaluate_report_quality o.evalQ revised_report state.word_limit "revision" now
    let revised_score := revised_quality_metrics.overall_score
    let revised_passes_check := should_report_pass_quality_check revised_quality_metrics
    -- 比较评分和质量，选择最佳版本
    let sel : String × Option QualityMetrics × ValidationStatus × String :=
      if revised_passes_check ∧ revised_score ≥ original_score then
        -- 修订版本更好且满足质量要求（此分支内 revised_passes_check 恒真，故直接通过）
        (revised_report, some revised_quality_metrics, ValidationStatus.VALIDATED,
          "修订后评分更高且满足要求，采用修订版本")
      else if revised_score > original_score then
        (revised_report, some revised_quality_metrics, ValidationStatus.NEEDS_REVISION,
          "修订后评分更高，采用修订版本")
      else
        (original_report, none, ValidationStatus.NEEDS_REVISION,
          "原版本评分更高，保留原版本")
    let final_report := sel.1
    let final_quality_metrics := sel.2.1
    let validation_status_after_revision := sel.2.2.1
    let score_message := sel.2.2.2
    -- 若修订版本字数仍偏离±5%，尝试进行一次自动微调；its outputs rebind
    -- locals that are not used again below.
    let target : Option Nat :=
      match state.word_limit with
      | none => none
      | some w => if w = 0 then none else some w
    let _adjusted_locals : String × QualityMetrics :=
      if target.isSome ∧ revised_quality_metrics.word_count_accuracy = false then
        let adjusted := o.adjust revised_report
        (adjusted,
          evaluate_report_quality o.evalQ adjusted state.word_limit "revision_adjusted" now)
      else (revised_report, revised_quality_metrics)
    let updated_state : GlobalState :=
      { state with
        final_report := some final_report
        current_agent := AgentName.REVISION
        last_updated := some now
        revision_count := state.revision_count + 1
        validation_status := validation_status_after_revision
        warnings := state.warnings ++
          ["已完成第" ++ toString (state.revision_count + 1) ++ "轮修订 - " ++ score_message] }
    match final_quality_metrics with
    | some m =>
      { updated_state with
        quality_metrics :=
          dictMerge state.quality_metrics
            (m.to_dict ++
              [("overall_score", QVal.num m.overall_score),
               ("revision_score", QVal.num m.overall_score),
               ("word_count_accuracy", QVal.bool m.word_count_accuracy),
               ("actual_word_count", QVal.nat m.actual_word_count),
               ("major_issues", QVal.strList m.major_issues),
               ("feedback", QVal.str m.feedback)]) }
    | none => updated_state

/-- The except-branch of revision_node: a caught exception e is converted
into an error state without raising. -/
def revision_error_state (e : String) (state : GlobalState) : GlobalState :=
  { state with
    current_agent := AgentName.REVISION
    error_message := some ("修订失败: " ++ e)
    validation_status := ValidationStatus.NEEDS_REVISION
    last_updated := pyOr state.start_time state.last_updated }

/-! ## Understanding stage (src/agents/problem_understanding_agent.py) -/

/-- External calls of problem_understanding_node: the rule-based
classifiers return a member together with a confidence and the matched
keywords (the classifier tables only produce valid members), and
llm_requirements is the parsed LLM fallback. -/
structure UnderstandingOracles where
  classify_domain : String → DomainCategory × ℚ × List String
  classify_intent : String → AnalysisIntent × ℚ × List String
  llm_requirements : String → AnalysisQuery

/-- DOMAIN_CONFIDENCE_THRESHOLD from the understanding agent. -/
def DOMAIN_CONFIDENCE_THRESHOLD : ℚ := 0.7

/-- INTENT_CONFIDENCE_THRESHOLD from the understanding agent. -/
def INTENT_CONFIDENCE_THRESHOLD : ℚ := 0.6

/-- problem_understanding_node from
src/agents/problem_understanding_agent.py (non-raising paths: the
reentrancy skip, the rule-based success path and the LLM fallback path).
now models datetime.now() during this execution; note that neither success
path reads the clock: both set last_updated from start_time with a
fallback to the previous last_updated.  Warning interpolations of the
confidence numbers are elided. -/
def problem_understanding_node (o : UnderstandingOracles) (now : Nat)
    (state : GlobalState) : GlobalState :=
  let _ := now
  if state.requirements.isSome then
    -- 重入保护：已存在 requirements 则跳过
    { state with current_agent := AgentName.UNDERSTANDING }
  else
    let query := state.user_query
    let dres := o.classify_domain query
    let ires := o.classify_intent query
    let use_rule_domain := decide (dres.2.1 ≥ DOMAIN_CONFIDENCE_THRESHOLD)
    let use_rule_intent := decide (ires.2.1 ≥ INTENT_CONFIDENCE_THRESHOLD)
    if use_rule_intent && use_rule_domain then
      { state with
        requirements := some { domain := dres.1, analysis_intent := ires.1 }
        current_agent := AgentName.UNDERSTANDING
        last_updated := pyOr state.start_time state.last_updated
        warnings := state.warnings ++ ["使用规则识别"] }
    else
      { state with
        requirements := some (o.llm_requirements query)
        current_agent := AgentName.UNDERSTANDING
        last_updated := pyOr state.start_time state.last_updated }

/-! ## Shared error-state helper (src/utils/agent_utils.py) -/

/-- create_error_state from src/utils/agent_utils.py (additional_fields
omitted: the callers in scope pass none). -/
def create_error_state (now : Nat) (state : GlobalState) (agent_name : AgentName)
    (error_message : String) (validation_status : ValidationStatus) : GlobalState :=
  { state with
    current_agent := agent_name
    error_message := some error_message
    validation_status := validation_status
    last_updated := some now }

/-! ## Section fan-out (src/agents/knowledge_retrieval_agent.py)

The fan-out submits one task per section whose title is not yet in
processed_sections, runs them on a pool of max_workers = concurrency, and
appends each completed title to the processed list in completion order.
Any order in which the futures complete is a permutation of the submitted
titles; the model takes that order as an explicit argument. -/

/-- The titles submitted to the executor: sections not yet processed. -/
def submitted_titles (sections : List String) (processed : List String) : List String :=
  sections.filter (fun t => !(processed.contains t))

/-- A possible as_completed order: some permutation of the submitted
titles (the thread pool guarantees nothing stronger, for any pool size). -/
def ValidCompletionOrder (initial : List String) (sections : List String)
    (completion : List String) : Prop :=
  completion.Perm (submitted_titles sections initial)

/-- The processed_sections list produced by knowledge_retrieval_node,
restricted to its section bookkeeping: if every section is already
processed (and there is at least one), the reentrancy guard returns the
list unchanged; otherwise the completed titles are appended in completion
order.  concurrency is the max_workers bound, which does not influence the
merged list. -/
def knowledge_retrieval_processed (concurrency : Nat) (initial : List String)
    (sections : List String) (completion : List String) : List String :=
  let _ := concurrency
  if sections ≠ [] ∧ sections.length ≤ initial.length then initial
  else initial ++ completion

/-! ## Checkpoint store (src/utils/checkpoint.py)

The state handled by serialize_state/deserialize_state is the Python dict
behind the GlobalState TypedDict; it is modelled as an ordered association
list of string keys and dynamic values.  ISO-8601 strings produced by
datetime.isoformat are injective and exactly inverted by
datetime.fromisoformat; they are modelled by the dedicated dtStr
constructor, a string that carries its timestamp. -/

/-- A Python value as seen by the checkpoint store. -/
inductive PyVal where
  | none
  | bool (b : Bool)
  | int (n : Int)
  | float (q : ℚ)
  | str (s : String)
  | dtStr (t : Nat)
  | dt (t : Nat)
  | vstatus (v : ValidationStatus)
  | agent (a : AgentName)
  | aquery (q : AnalysisQuery)
  | rstruct (r : ReportStructure)
  | list (l : List PyVal)
  | dict (d : List (String × PyVal))

/-- The dict behind a GlobalState value. -/
abbrev StateDict := List (String × PyVal)

/-- Python value is None. -/
def PyVal.isNone : PyVal → Bool
  | .none => true
  | _ => false

/-- isinstance(value, str): ordinary strings and ISO-formatted datetime
strings. -/
def PyVal.isStr : PyVal → Bool
  | .str _ => true
  | .dtStr _ => true
  | _ => false

mutual

/-- to_serializable inside serialize_state: datetimes to ISO strings,
enums to their values, pydantic models to their model_dump dicts
(rendered through json as plain trees), lists and dicts recursively,
scalars unchanged. -/
def toSerializable : PyVal → PyVal
  | .none => .none
  | .dt t => .dtStr t
  | .vstatus v => .str v.value
  | .agent a => .str a.value
  | .aquery q => .dict (dumpAnalysisQuery q)
  | .rstruct r => .dict (dumpReportStructure r)
  | .list l => .list (toSerializableList l)
  | .dict d => .dict (toSerializableDict d)
  | .bool b => .bool b
  | .int n => .int n
  | .float q => .float q
  | .str s => .str s
  | .dtStr t => .dtStr t

/-- to_serializable mapped over a list. -/
def toSerializableList : List PyVal → List PyVal
  | [] => []
  | v :: vs => toSerializable v :: toSerializableList vs

/-- to_serializable mapped over the values of a dict. -/
def toSerializableDict : List (String × PyVal) → List (String × PyVal)
  | [] => []
  | (k, v) :: kvs => (k, toSerializable v) :: toSerializableDict kvs

/-- AnalysisQuery.model_dump, as serialized into the snapshot: the two
enum fields become their value strings. -/
def dumpAnalysisQuery (q : AnalysisQuery) : List (String × PyVal) :=
  [("domain", .str q.domain.value), ("analysis_intent", .str q.analysis_intent.value)]

/-- ReportSection as a model_dump entry. -/
def dumpReportSection (s : ReportSection) : List (String × PyVal) :=
  [("title", .str s.title),
   ("key_questions", .list (s.key_questions.map (fun x => .str x))),
   ("content", .str s.content),
   ("sources", .list (s.sources.map (fun x => .str x))),
   ("status", .str s.status.value)]

/-- The sections list of a model_dump of ReportStructure. -/
def dumpSections : List ReportSection → List PyVal
  | [] => []
  | s :: rest => .dict (dumpReportSection s) :: dumpSections rest

/-- ReportStructure.model_dump, as serialized into the snapshot. -/
def dumpReportStructure (r : ReportStructure) : List (String × PyVal) :=
  [("template_type", .str r.template_type),
   ("sections", .list (dumpSections r.sections)),
   ("executive_summary_required", .bool r.executive_summary_required),
   ("recommendations_required", .bool r.recommendations_required),
   ("target_length", .int r.target_length),
   ("length_tolerance", .int r.length_tolerance)]

end

/-- serialize_state from src/utils/checkpoint.py: keep the entries whose
value is not None, each rendered by to_serializable. -/
def serialize_state (state : StateDict) : StateDict :=
  (state.filter (fun kv => !(kv.2.isNone))).map (fun kv => (kv.1, toSerializable kv.2))

/-- The documented alias table of coerce_analysis_intent. -/
def alias_map : List (String × String) :=
  [("概览", "overview"),
   ("总体概览", "overview"),
   ("overview", "overview"),
   ("对比", "comparison"),
   ("比较", "comparison"),
   ("comparison", "comparison"),
   ("因果分析", "causal_analysis"),
   ("因果", "causal_analysis"),
   ("causal_analysis", "causal_analysis"),
   ("趋势预测", "trend_prediction"),
   ("预测", "trend_prediction"),
   ("trend_prediction", "trend_prediction"),
   ("利弊评估", "pros_cons"),
   ("优缺点", "pros_cons"),
   ("pros_cons", "pros_cons"),
   ("解决方案", "solution_proposal"),
   ("方案建议", "solution_proposal"),
   ("solution_proposal", "solution_proposal")]

/-- Python str.lower on one character (ASCII range; the alias table and
enum values only exercise ASCII letters and Chinese characters, which
lower leaves unchanged). -/
def pyLowerChar (c : Char) : Char :=
  if 0x41 ≤ c.toNat ∧ c.toNat ≤ 0x5a then Char.ofNat (c.toNat + 32) else c

/-- Python str.strip whitespace class (space, tab, newlines, vertical tab,
form feed). -/
def pyIsSpace (c : Char) : Bool :=
  decide (c = ' ' ∨ c = '\t' ∨ c = '\n' ∨ c = '\r' ∨ c = '\x0b' ∨ c = '\x0c')

/-- value.strip().lower() of coerce_analysis_intent. -/
def pyStripLower (s : String) : String :=
  String.mk (((s.toList.dropWhile pyIsSpace).reverse.dropWhile pyIsSpace).reverse.map
    pyLowerChar)

/-- coerce_analysis_intent of deserialize_state, on a string value:
normalize, translate through the alias table, try the enum by value, then
by member name, and fall back to OVERVIEW.  It is total: no string makes
it raise. -/
def coerce_analysis_intent (s : String) : AnalysisIntent :=
  let normalized := pyStripLower s
  let target := (alias_map.lookup normalized).getD normalized
  match AnalysisIntent.fromValue? target with
  | some i => i
  | Option.none =>
    match (List.find? (fun i => String.mk (i.memberName.toList.map pyLowerChar) = normalized)
        [AnalysisIntent.OVERVIEW, .COMPARISON, .CAUSAL_ANALYSIS,
         .TREND_PREDICTION, .PROS_CONS, .SOLUTION_PROPOSAL]) with
    | some i => i
    | Option.none => AnalysisIntent.OVERVIEW

/-- coerce_analysis_intent on a dynamic value: enum members pass through,
strings are coerced, anything else falls back to OVERVIEW. -/
def coerce_analysis_intent_val : PyVal → AnalysisIntent
  | .str s => coerce_analysis_intent s
  | .dtStr t => coerce_analysis_intent (toString t)
  | _ => AnalysisIntent.OVERVIEW

/-- dict.get(key): first entry with the given key. -/
def plookup : List (String × PyVal) → String → Option PyVal
  | [], _ => Option.none
  | (k, v) :: rest, key => if key = k then some v else plookup rest key

/-- A key is present in a dict. -/
def hasKey (d : List (String × PyVal)) (k : String) : Bool :=
  d.any (fun kv => kv.1 == k)

/-- Read a serialized list of strings back (pydantic list-of-str
coercion); any non-string element is a validation failure. -/
def extractStrList : List PyVal → Option (List String)
  | [] => some []
  | PyVal.str s :: rest => (extractStrList rest).map (fun l => s :: l)
  | _ :: _ => Option.none

/-- Overwrite one key of a dict, preserving order (Python dict update). -/
def dictSetP (d : List (String × PyVal)) (k : String) (v : PyVal) :
    List (String × PyVal) :=
  if hasKey d k then d.map (fun kv => if kv.1 == k then (k, v) else kv)
  else d ++ [(k, v)]

/-- AnalysisQuery(**patched) on the requirements dict of a snapshot, the
intent entry already patched by coerce_analysis_intent: pydantic requires
both fields and coerces the domain string through the enum, raising on an
unknown domain (extra keys are ignored). -/
def buildAnalysisQuery (d : List (String × PyVal)) : Except String AnalysisQuery :=
  let d' :=
    if hasKey d "analysis_intent" then
      dictSetP d "analysis_intent"
        (.str (coerce_analysis_intent_val ((plookup d "analysis_intent").getD .none)).value)
    else d
  match plookup d' "domain", plookup d' "analysis_intent" with
  | some (.str dom), some (.str intentStr) =>
    match DomainCategory.fromValue? dom, AnalysisIntent.fromValue? intentStr with
    | some dc, some ai => .ok { domain := dc, analysis_intent := ai }
    | _, _ => .error "ValidationError: AnalysisQuery"
  | _, _ => .error "ValidationError: AnalysisQuery"

/-- ReportSection(**d) while rebuilding a ReportStructure: title,
key_questions and content are required; sources defaults to [] and status
to outlined. -/
def buildReportSection (d : List (String × PyVal)) : Except String ReportSection :=
  match plookup d "title", plookup d "key_questions", plookup d "content" with
  | some (.str title), some (.list kqs), some (.str content) =>
    match extractStrList kqs with
    | some key_questions =>
      let sourcesE : Except String (List String) :=
        match plookup d "sources" with
        | Option.none => .ok []
        | some (.list srcs) =>
          match extractStrList srcs with
          | some l => .ok l
          | Option.none => .error "ValidationError: sources"
        | some _ => .error "ValidationError: sources"
      let statusE : Except String SectionStatus :=
        match plookup d "status" with
        | Option.none => .ok .outlined
        | some (.str st) =>
          match SectionStatus.fromValue? st with
          | some v => .ok v
          | Option.none => .error "ValidationError: status"
        | some _ => .error "ValidationError: status"
      match sourcesE, statusE with
      | .ok sources, .ok status =>
        .ok { title := title, key_questions := key_questions, content := content,
              sources := sources, status := status }
      | .error e, _ => .error e
      | _, .error e => .error e
    | Option.none => .error "ValidationError: key_questions"
  | _, _, _ => .error "ValidationError: ReportSection"

/-- Rebuild the sections list of a ReportStructure snapshot. -/
def buildSections : List PyVal → Except String (List ReportSection)
  | [] => .ok []
  | .dict d :: rest => do
    let s ← buildReportSection d
    let tail ← buildSections rest
    return s :: tail
  | _ :: _ => .error "ValidationError: section"

/-- ReportStructure(**value): template_type, sections and target_length
are required; executive_summary_required and recommendations_required
default to true and length_tolerance to 0. -/
def buildReportStructure (d : List (String × PyVal)) : Except String ReportStructure :=
  match plookup d "template_type", plookup d "sections", plookup d "target_length" with
  | some (.str tt), some (.list secs), some (.int tl) => do
    let sections ← buildSections secs
    let esr : Except String Bool :=
      match plookup d "executive_summary_required" with
      | Option.none => .ok true
      | some (.bool b) => .ok b
      | some _ => .error "ValidationError: executive_summary_required"
    let rr : Except String Bool :=
      match plookup d "recommendations_required" with
      | Option.none => .ok true
      | some (.bool b) => .ok b
      | some _ => .error "ValidationError: recommendations_required"
    let lt : Except String Int :=
      match plookup d "length_tolerance" with
      | Option.none => .ok 0
      | some (.int n) => .ok n
      | some _ => .error "ValidationError: length_tolerance"
    match esr, rr, lt with
    | .ok e, .ok r, .ok l =>
      return { template_type := tt, sections := sections,
               executive_summary_required := e, recommendations_required := r,
               target_length := tl, length_tolerance := l }
    | .error e, _, _ => .error e
    | _, .error e, _ => .error e
    | _, _, .error e => .error e
  | _, _, _ => .error "ValidationError: ReportStructure"

/-- from_serializable inside deserialize_state, dispatching on the key;
a raised exception (fromisoformat or enum ValueError or pydantic
ValidationError) is the error case. -/
def fromSerializable (k : String) (v : PyVal) : Except String PyVal :=
  match v with
  | .none => .ok .none
  | v =>
    if (k = "start_time" ∨ k = "last_updated") ∧ v.isStr then
      match v with
      | .dtStr t => .ok (.dt t)
      | _ => .error "ValueError: fromisoformat"
    else if k = "validation_status" ∧ v.isStr then
      match v with
      | .str s =>
        match ValidationStatus.fromValue? s with
        | some x => .ok (.vstatus x)
        | Option.none => .error "ValueError: ValidationStatus"
      | _ => .error "ValueError: ValidationStatus"
    else if k = "current_agent" ∧ v.isStr then
      match v with
      | .str s =>
        match AgentName.fromValue? s with
        | some x => .ok (.agent x)
        | Option.none => .error "ValueError: AgentName"
      | _ => .error "ValueError: AgentName"
    else if k = "requirements" then
      match v with
      | .dict d => (buildAnalysisQuery d).map .aquery
      | _ => .ok v
    else if k = "structure" then
      match v with
      | .dict d => (buildReportStructure d).map .rstruct
      | _ => .ok v
    else .ok v

/-- deserialize_state from src/utils/checkpoint.py: rebuild every entry,
propagating the first raised exception. -/
def deserialize_state : StateDict → Except String StateDict
  | [] => .ok []
  | (k, v) :: rest => do
    let v' ← fromSerializable k v
    let rest' ← deserialize_state rest
    return (k, v') :: rest'

/-- The JSON document written by save_checkpoint: the serialized state
alongside a meta block with the save time and version. -/
def save_checkpoint_payload (now : Nat) (state : StateDict) : List (String × PyVal) :=
  [("state", .dict (serialize_state state)),
   ("meta", .dict [("saved_at", .dtStr now), ("version", .int 1)])]

/-- load_checkpoint after json.load: take the payload entry "state" when
present (falling back to the whole payload) and deserialize it. -/
def load_checkpoint_payload (payload : List (String × PyVal)) : Except String StateDict :=
  match plookup payload "state" with
  | some (.dict d) => deserialize_state d
  | some _ => .error "TypeError: state is not a mapping"
  | Option.none => deserialize_state payload

/-! ## File-system trace of save_checkpoint (src/utils/checkpoint.py)

save_checkpoint opens the target path for writing and json-dumps the
payload into it — a single direct write.  To reason about interruption,
the file operations are traced, with a crash semantics in which a write
either has not started, was interrupted (leaving a truncated file), or
completed. -/

/-- One file operation. -/
inductive FsOp where
  | write (path : String) (content : List (String × PyVal))
  | rename (src : String) (dst : String)

/-- What a path holds on disk. -/
inductive FileContent where
  | intact (doc : List (String × PyVal))
  | truncated

/-- A file system: paths and their contents. -/
abbrev Fs := List (String × FileContent)

/-- Set the content of a path. -/
def fsSet (fs : Fs) (p : String) (c : FileContent) : Fs :=
  if fs.any (fun kv => kv.1 == p) then fs.map (fun kv => if kv.1 == p then (p, c) else kv)
  else fs ++ [(p, c)]

/-- Atomically rename src over dst. -/
def fsRename (fs : Fs) (src : String) (dst : String) : Fs :=
  match fs.lookup src with
  | some c => fsSet (fs.filter (fun kv => !(kv.1 == src))) dst c
  | Option.none => fs

/-- Every file system reachable if execution stops before, inside, or
after each operation of a trace; renames are atomic, writes can be
interrupted leaving a truncated target. -/
def crashStates : List FsOp → Fs → List Fs
  | [], fs => [fs]
  | FsOp.write p c :: rest, fs =>
    fs :: fsSet fs p FileContent.truncated :: crashStates rest (fsSet fs p (FileContent.intact c))
  | FsOp.rename src dst :: rest, fs =>
    fs :: crashStates rest (fsRename fs src dst)

/-- The file operations performed by save_checkpoint: one direct write of
the payload to the target path (open(path, "w") followed by json.dump). -/
def save_checkpoint_ops (state : StateDict) (now : Nat) (path : String) : List FsOp :=
  [FsOp.write path (save_checkpoint_payload now state)]

/-- The atomic write-then-rename discipline the specification prescribes
for save (stated from the specification, for comparison with the trace
of the code): write the snapshot to a distinct temporary path, then
rename it over the target. -/
def WritesViaTempRename (ops : List FsOp) (target : String) : Prop :=
  ∃ tmp content, tmp ≠ target ∧ ops = [FsOp.write tmp content, FsOp.rename tmp target]

/-- A trace never leaves a truncated file at the target, from any starting
file system (stated from the specification: an interruption mid-write
never corrupts the snapshot at the target path). -/
def NeverTruncatesTarget (ops : List FsOp) (target : String) : Prop :=
  ∀ fs₀ fs, fs ∈ crashStates ops fs₀ → fs.lookup target ≠ some FileContent.truncated

/-! ## Initial state (app.py) -/

/-- create_init_state from app.py, at the dict level: note that every
optional field is present and explicitly None, and word_limit defaults to
1091. -/
def create_init_state (user_query : String) (now : Nat) : StateDict :=
  [("user_query", .str user_query),
   ("requirements", .none),
   ("structure", .none),
   ("knowledge_base", .dict []),
   ("draft_report", .none),
   ("final_report", .none),
   ("validation_status", .vstatus ValidationStatus.PENDING),
   ("revision_count", .int 0),
   ("current_agent", .agent AgentName.COORDINATOR),
   ("active_section", .none),
   ("processed_sections", .list []),
   ("start_time", .dt now),
   ("last_updated", .dt now),
   ("error_message", .none),
   ("warnings", .list []),
   ("quality_metrics", .dict []),
   ("processing_time", .none),
   ("word_limit", .int 1091)]

/-! ## Well-formed snapshots and round-trip lemmas -/

mutual

/-- A plain JSON-compatible value: scalars (including already-rendered
ISO strings), lists and dicts of plain values — the values on which
to_serializable acts as the identity and json round-trips exactly. -/
def isPlain : PyVal → Bool
  | .none => true
  | .bool _ => true
  | .int _ => true
  | .float _ => true
  | .str _ => true
  | .dtStr _ => true
  | .dt _ => false
  | .vstatus _ => false
  | .agent _ => false
  | .aquery _ => false
  | .rstruct _ => false
  | .list l => isPlainList l
  | .dict d => isPlainDict d

/-- isPlain over a list of values. -/
def isPlainList : List PyVal → Bool
  | [] => true
  | v :: vs => isPlain v && isPlainList vs

/-- isPlain over the values of a dict. -/
def isPlainDict : List (String × PyVal) → Bool
  | [] => true
  | (_, v) :: kvs => isPlain v && isPlainDict kvs

end

/-- A well-formed state entry: the typed keys hold their typed values (or
None), every other key holds a plain JSON tree.  Every dict produced by
the pipeline stages satisfies this. -/
def WFEntry (k : String) (v : PyVal) : Prop :=
  if k = "start_time" ∨ k = "last_updated" then (∃ t, v = .dt t) ∨ v = .none
  else if k = "validation_status" then (∃ x, v = .vstatus x) ∨ v = .none
  else if k = "current_agent" then (∃ a, v = .agent a) ∨ v = .none
  else if k = "requirements" then (∃ q, v = .aquery q) ∨ v = .none
  else if k = "structure" then (∃ r, v = .rstruct r) ∨ v = .none
  else isPlain v = true

/-! ## Shared concrete fixtures for witnesses and counterexamples -/

/-- A neutral pipeline state used as the base of concrete instances. -/
def baseState : GlobalState :=
  { user_query := "q"
    requirements := Option.none
    structure_ := Option.none
    draft_report := Option.none
    final_report := Option.none
    validation_status := ValidationStatus.PENDING
    revision_count := 0
    current_agent := AgentName.COORDINATOR
    active_section := Option.none
    processed_sections := []
    start_time := some 0
    last_updated := some 0
    error_message := Option.none
    warnings := []
    quality_metrics := []
    processing_time := Option.none
    word_limit := Option.none }

/-- A parsed evaluation with all-zero content. -/
def trivialEvalParsed : EvalParsed :=
  { overall_score := 0, detailed_scores := [], major_issues := [], feedback := "" }

/-- Oracles whose calls return fixed answers. -/
def trivialRevisionOracles : RevisionOracles :=
  { evalQ := fun _ _ => trivialEvalParsed
    smartRevise := fun r _ _ _ => r
    adjust := fun r => r }

/-- A passing metrics value: score 9.0 and no issues. -/
def metricsNinePass : QualityMetrics :=
  { overall_score := 9.0, detailed_scores := [], major_issues := [], feedback := ""
    word_count_accuracy := true, actual_word_count := 0, evaluation_method := ""
    timestamp := 0 }

/-- A failing metrics value: score 8.1 and one major issue. -/
def metricsEightOneFail : QualityMetrics :=
  { overall_score := 8.1, detailed_scores := [], major_issues := ["x"], feedback := ""
    word_count_accuracy := true, actual_word_count := 0, evaluation_method := ""
    timestamp := 0 }

/-- A state whose start_time and last_updated differ, to expose which one
a transition writes. -/
def staleState : GlobalState :=
  { baseState with start_time := some 5, last_updated := some 7 }

/-- Classifier oracles with rule confidence high enough to take the
rule-based success path. -/
def ruleOracles : UnderstandingOracles :=
  { classify_domain := fun _ => (DomainCategory.GENERAL, 1, [])
    classify_intent := fun _ => (AnalysisIntent.OVERVIEW, 1, [])
    llm_requirements := fun _ =>
      { domain := DomainCategory.GENERAL, analysis_intent := AnalysisIntent.OVERVIEW } }

/-- The artifact kept by the selection step of revision_node: the revised
candidate when it passes the gate with a score at least the original, or
scores strictly higher; otherwise the original report. -/
def revision_selected_report (o : RevisionOracles) (now : Nat) (s : GlobalState) : String :=
  let original_report := s.final_report.getD ""
  let current_quality_metrics :=
    evaluate_report_quality o.evalQ original_report s.word_limit "pre_revision" now
  let revised_report :=
    o.smartRevise original_report current_quality_metrics s.word_limit s.revision_count
  let revised_quality_metrics :=
    evaluate_report_quality o.evalQ revised_report s.word_limit "revision" now
  if should_report_pass_quality_check revised_quality_metrics ∧
      revised_quality_metrics.overall_score ≥ qmOverallScore s.quality_metrics then
    revised_report
  else if revised_quality_metrics.overall_score > qmOverallScore s.quality_metrics then
    revised_report
  else original_report

/-- A state about to be revised: a non-empty report scored 9 in the state
metrics, needing revision, with a word limit of 100. -/
def cexState : GlobalState :=
  { baseState with
    final_report := some "origreport"
    validation_status := ValidationStatus.NEEDS_REVISION
    quality_metrics := [("overall_score", QVal.num 9)]
    word_limit := some 100 }

/-- Oracles whose revision candidate "rev" scores 5 (worse than the
original 9) and is far outside the ±5 percent size window, and whose
corrective pass returns the distinct text "ADJUSTED". -/
def cexOracles : RevisionOracles :=
  { evalQ := fun _ _ =>
      { overall_score := 5, detailed_scores := [], major_issues := [], feedback := "" }
    smartRevise := fun _ _ _ _ => "rev"
    adjust := fun _ => "ADJUSTED" }

/-- A small well-formed state dict with one None entry. -/
def wfSmallState : StateDict :=
  [("user_query", .str "q"),
   ("validation_status", .vstatus ValidationStatus.PENDING),
   ("start_time", .dt 3),
   ("requirements",
     .aquery { domain := DomainCategory.GENERAL, analysis_intent := AnalysisIntent.OVERVIEW }),
   ("error_message", .none)]

/-- An initial file system holding a good previous snapshot at the
checkpoint path. -/
def fsWithOldSnapshot : Fs :=
  [("checkpoint.json", FileContent.intact (save_checkpoint_payload 0 (create_init_state "q" 0)))]

/-! ## Lemmas and claim theorems -/

/-- Looking an AnalysisIntent member up by its own value succeeds. -/
theorem intent_fromValue_of_value (i : AnalysisIntent) :
    AnalysisIntent.fromValue? i.value = some i := by cases i <;> rfl

/-- Looking a DomainCategory member up by its own value succeeds. -/
theorem domain_fromValue_of_value (d : DomainCategory) :
    DomainCategory.fromValue? d.value = some d := by cases d <;> rfl

/-- Looking a ValidationStatus member up by its own value succeeds. -/
theorem vstatus_fromValue_of_value (v : ValidationStatus) :
    ValidationStatus.fromValue? v.value = some v := by cases v <;> rfl

/-- Looking an AgentName member up by its own value succeeds. -/
theorem agent_fromValue_of_value (a : AgentName) :
    AgentName.fromValue? a.value = some a := by cases a <;> rfl

/-- Looking a SectionStatus literal up by its own tag succeeds. -/
theorem sstatus_fromValue_of_value (s : SectionStatus) :
    SectionStatus.fromValue? s.value = some s := by cases s <;> rfl

/-- Coercing a canonical intent value returns that member. -/
theorem coerce_analysis_intent_value (i : AnalysisIntent) :
    coerce_analysis_intent i.value = i := by cases i <;> rfl

mutual

/-- to_serializable is the identity on plain JSON values. -/
theorem toSerializable_of_isPlain : ∀ v : PyVal, isPlain v = true → toSerializable v = v
  | .none, _ => rfl
  | .bool _, _ => rfl
  | .int _, _ => rfl
  | .float _, _ => rfl
  | .str _, _ => rfl
  | .dtStr _, _ => rfl
  | .dt _, h => by simp [isPlain] at h
  | .vstatus _, h => by simp [isPlain] at h
  | .agent _, h => by simp [isPlain] at h
  | .aquery _, h => by simp [isPlain] at h
  | .rstruct _, h => by simp [isPlain] at h
  | .list l, h => by
    have hl : isPlainList l = true := by simpa [isPlain] using h
    simp [toSerializable, toSerializableList_of_isPlainList l hl]
  | .dict d, h => by
    have hd : isPlainDict d = true := by simpa [isPlain] using h
    simp [toSerializable, toSerializableDict_of_isPlainDict d hd]

/-- to_serializable is the identity on lists of plain values. -/
theorem toSerializableList_of_isPlainList :
    ∀ l : List PyVal, isPlainList l = true → toSerializableList l = l
  | [], _ => rfl
  | v :: vs, h => by
    have hv : isPlain v = true := by
      have := h; simp [isPlainList, Bool.and_eq_true] at this; exact this.1
    have hvs : isPlainList vs = true := by
      have := h; simp [isPlainList, Bool.and_eq_true] at this; exact this.2
    simp [toSerializableList, toSerializable_of_isPlain v hv,
      toSerializableList_of_isPlainList vs hvs]

/-- to_serializable is the identity on dicts of plain values. -/
theorem toSerializableDict_of_isPlainDict :
    ∀ d : List (String × PyVal), isPlainDict d = true → toSerializableDict d = d
  | [], _ => rfl
  | (k, v) :: kvs, h => by
    have hv : isPlain v = true := by
      have := h; simp [isPlainDict, Bool.and_eq_true] at this; exact this.1
    have hkvs : isPlainDict kvs = true := by
      have := h; simp [isPlainDict, Bool.and_eq_true] at this; exact this.2
    simp [toSerializableDict, toSerializable_of_isPlain v hv,
      toSerializableDict_of_isPlainDict kvs hkvs]

end

/-- Extracting strings back out of a list of serialized strings. -/
theorem extractStrList_map (l : List String) :
    extractStrList (l.map (fun x => PyVal.str x)) = some l := by
  induction l with
  | nil => rfl
  | cons x xs ih => simp [extractStrList, ih]

/-- Rebuilding a dumped ReportSection restores it. -/
theorem buildReportSection_dump (s : ReportSection) :
    buildReportSection (dumpReportSection s) = .ok s := by
  simp [buildReportSection, dumpReportSection, plookup, extractStrList_map,
    sstatus_fromValue_of_value]

/-- Rebuilding a dumped sections list restores it. -/
theorem buildSections_dump : ∀ l : List ReportSection, buildSections (dumpSections l) = .ok l
  | [] => rfl
  | s :: rest => by
    simp [dumpSections, buildSections, buildReportSection_dump,
      buildSections_dump rest, Bind.bind, Except.bind, Pure.pure, Except.pure]

/-- Rebuilding a dumped AnalysisQuery restores it. -/
theorem buildAnalysisQuery_dump (q : AnalysisQuery) :
    buildAnalysisQuery (dumpAnalysisQuery q) = .ok q := by
  obtain ⟨d, i⟩ := q
  cases d <;> cases i <;> rfl

/-- Rebuilding a dumped ReportStructure restores it. -/
theorem buildReportStructure_dump (r : ReportStructure) :
    buildReportStructure (dumpReportStructure r) = .ok r := by
  simp [buildReportStructure, dumpReportStructure, plookup, buildSections_dump,
    Bind.bind, Except.bind, Pure.pure, Except.pure]

/-- A well-formed non-None entry survives serialization and
deserialization unchanged. -/
theorem fromSerializable_toSerializable (k : String) (v : PyVal)
    (hwf : WFEntry k v) (hv : v ≠ .none) :
    fromSerializable k (toSerializable v) = .ok v := by
  unfold WFEntry at hwf
  by_cases hk1 : k = "start_time" ∨ k = "last_updated"
  · rw [if_pos hk1] at hwf
    rcases hwf with ⟨t, rfl⟩ | rfl
    · simp [toSerializable, fromSerializable, hk1, PyVal.isStr]
    · exact absurd rfl hv
  · rw [if_neg hk1] at hwf
    by_cases hk2 : k = "validation_status"
    · rw [if_pos hk2] at hwf
      rcases hwf with ⟨x, rfl⟩ | rfl
      · simp [toSerializable, fromSerializable, hk1, hk2, PyVal.isStr,
          vstatus_fromValue_of_value]
      · exact absurd rfl hv
    · rw [if_neg hk2] at hwf
      by_cases hk3 : k = "current_agent"
      · rw [if_pos hk3] at hwf
        rcases hwf with ⟨a, rfl⟩ | rfl
        · simp [toSerializable, fromSerializable, hk1, hk2, hk3, PyVal.isStr,
            agent_fromValue_of_value]
        · exact absurd rfl hv
      · rw [if_neg hk3] at hwf
        by_cases hk4 : k = "requirements"
        · rw [if_pos hk4] at hwf
          rcases hwf with ⟨q, rfl⟩ | rfl
          · simp [toSerializable, fromSerializable, hk1, hk2, hk3, hk4, PyVal.isStr,
              buildAnalysisQuery_dump, Except.map]
          · exact absurd rfl hv
        · rw [if_neg hk4] at hwf
          by_cases hk5 : k = "structure"
          · rw [if_pos hk5] at hwf
            rcases hwf with ⟨r, rfl⟩ | rfl
            · simp [toSerializable, fromSerializable, hk1, hk2, hk3, hk4, hk5,
                PyVal.isStr, buildReportStructure_dump, Except.map]
            · exact absurd rfl hv
          · rw [if_neg hk5] at hwf
            rw [toSerializable_of_isPlain v hwf]
            cases v with
            | none => exact absurd rfl hv
            | bool b => simp [fromSerializable, hk1, hk2, hk3, hk4, hk5, PyVal.isStr]
            | int n => simp [fromSerializable, hk1, hk2, hk3, hk4, hk5, PyVal.isStr]
            | float q => simp [fromSerializable, hk1, hk2, hk3, hk4, hk5, PyVal.isStr]
            | str s => simp [fromSerializable, hk1, hk2, hk3, hk4, hk5, PyVal.isStr]
            | dtStr t => simp [fromSerializable, hk1, hk2, hk3, hk4, hk5, PyVal.isStr]
            | dt t => simp [isPlain] at hwf
            | vstatus x => simp [isPlain] at hwf
            | agent a => simp [isPlain] at hwf
            | aquery q => simp [isPlain] at hwf
            | rstruct r => simp [isPlain] at hwf
            | list l => simp [fromSerializable, hk1, hk2, hk3, hk4, hk5, PyVal.isStr]
            | dict d => simp [fromSerializable, hk1, hk2, hk3, hk4, hk5, PyVal.isStr]

/-- One step of serialize_state. -/
theorem serialize_state_cons (k : String) (v : PyVal) (rest : StateDict) :
    serialize_state ((k, v) :: rest) =
      if v.isNone then serialize_state rest
      else (k, toSerializable v) :: serialize_state rest := by
  by_cases h : v.isNone <;> simp [serialize_state, List.filter_cons, h]

/-- Deserializing the serialization of a well-formed state dict restores
exactly the entries whose value was not None. -/
theorem deserialize_serialize_of_WF :
    ∀ s : StateDict, (∀ kv ∈ s, WFEntry kv.1 kv.2) →
      deserialize_state (serialize_state s) =
        .ok (s.filter (fun kv => !(kv.2.isNone)))
  | [], _ => rfl
  | (k, v) :: rest, hwf => by
    have hrest := deserialize_serialize_of_WF rest (fun kv hkv => hwf kv (List.mem_cons_of_mem _ hkv))
    have hhead : WFEntry k v := hwf (k, v) (List.mem_cons_self _ _)
    by_cases h : v.isNone
    · have hv : v = .none := by cases v <;> simp [PyVal.isNone] at h ⊢
      subst hv
      simpa [serialize_state_cons, List.filter_cons] using hrest
    · have hv : v ≠ .none := by
        intro h2; subst h2; simp [PyVal.isNone] at h
      rw [serialize_state_cons, if_neg h]
      simp [deserialize_state, fromSerializable_toSerializable k v hhead hv, hrest,
        List.filter_cons, h, Bind.bind, Except.bind, Pure.pure, Except.pure]

/-! ## Claim theorems -/

/-- C1: entering the revise stage with revision_count already at the
ceiling 3 leaves the report untouched, forces validation_status to
validated, appends a warning, and does not increment the counter. -/
theorem revision_ceiling_noop (o : RevisionOracles) (now : Nat) (state : GlobalState)
    (h : state.revision_count = 3) :
    (revision_node o now state).final_report = state.final_report ∧
    (revision_node o now state).validation_status = ValidationStatus.VALIDATED ∧
    (revision_node o now state).warnings =
      state.warnings ++ ["已达到最大修订次数 3，停止修订"] ∧
    (revision_node o now state).revision_count = state.revision_count := by
  have hc : state.revision_count ≥ 3 := le_of_eq h.symm
  unfold revision_node
  rw [if_pos hc]
  exact ⟨rfl, rfl, rfl, rfl⟩

/-- Witness for C1 at a concrete capped state. -/
theorem revision_ceiling_noop_witness :
    ({ baseState with revision_count := 3 } : GlobalState).revision_count = 3 ∧
    ((revision_node trivialRevisionOracles 0 { baseState with revision_count := 3 }).final_report =
        ({ baseState with revision_count := 3 } : GlobalState).final_report ∧
      (revision_node trivialRevisionOracles 0
          { baseState with revision_count := 3 }).validation_status =
        ValidationStatus.VALIDATED ∧
      (revision_node trivialRevisionOracles 0 { baseState with revision_count := 3 }).warnings =
        ({ baseState with revision_count := 3 } : GlobalState).warnings ++
          ["已达到最大修订次数 3，停止修订"] ∧
      (revision_node trivialRevisionOracles 0
          { baseState with revision_count := 3 }).revision_count =
        ({ baseState with revision_count := 3 } : GlobalState).revision_count) :=
  ⟨rfl, revision_ceiling_noop trivialRevisionOracles 0 _ rfl⟩

/-- C4: the conditional edge after the validate stage routes validated
states to the final-artifact stage, needs-revision states below the
ceiling to the revise stage, and everything else (failed or capped) to
the final-artifact stage; the route is always one of the two declared
targets. -/
theorem should_revision_routing :
    (∀ s : GlobalState, s.validation_status = ValidationStatus.VALIDATED →
      should_revision s = "generate_report") ∧
    (∀ s : GlobalState, s.validation_status = ValidationStatus.NEEDS_REVISION →
      s.revision_count < 3 → should_revision s = "revision") ∧
    (∀ s : GlobalState, s.validation_status ≠ ValidationStatus.VALIDATED →
      ¬(s.validation_status = ValidationStatus.NEEDS_REVISION ∧ s.revision_count < 3) →
      should_revision s = "generate_report") ∧
    (∀ s : GlobalState, should_revision s ∈ validation_conditional_targets) := by
  refine ⟨fun s h => ?_, fun s h hlt => ?_, fun s h1 h2 => ?_, fun s => ?_⟩
  · simp [should_revision, h]
  · have : s.validation_status ≠ ValidationStatus.VALIDATED := by rw [h]; intro hx; cases hx
    simp [should_revision, this, h, hlt]
  · simp [should_revision, h1, h2]
  · unfold should_revision validation_conditional_targets
    split
    · simp
    · split <;> simp

/-- Witness for C4 at concrete states covering all three routes. -/
theorem should_revision_routing_witness :
    should_revision { baseState with validation_status := ValidationStatus.VALIDATED } =
      "generate_report" ∧
    should_revision
      { baseState with
        validation_status := ValidationStatus.NEEDS_REVISION
        revision_count := 1 } = "revision" ∧
    should_revision
      { baseState with
        validation_status := ValidationStatus.FAILED
        revision_count := 3 } = "generate_report" :=
  ⟨should_revision_routing.1 _ rfl,
   should_revision_routing.2.1 _ rfl (by decide),
   should_revision_routing.2.2.1 _ (by decide) (by decide)⟩

/-- C5: the quality gate passes exactly when the overall score is at least
8.3, or at least 8.0 with no major issues; hence a 9.0 report with no
issues passes, an 8.1 report with issues fails, and for empty issue lists
the gate is monotone in the score. -/
theorem quality_gate_pass_rule :
    (∀ m : QualityMetrics, should_report_pass_quality_check m = true ↔
      (m.overall_score ≥ (8.3 : ℚ) ∨
        (m.overall_score ≥ (8.0 : ℚ) ∧ m.major_issues = []))) ∧
    (∀ m m' : QualityMetrics, m.major_issues = [] → m'.major_issues = [] →
      m.overall_score ≤ m'.overall_score →
      should_report_pass_quality_check m = true →
      should_report_pass_quality_check m' = true) ∧
    (∀ m : QualityMetrics, m.overall_score = (9.0 : ℚ) → m.major_issues = [] →
      should_report_pass_quality_check m = true) ∧
    (∀ m : QualityMetrics, m.overall_score = (8.1 : ℚ) → m.major_issues ≠ [] →
      should_report_pass_quality_check m = false) := by
  have hiff : ∀ m : QualityMetrics, should_report_pass_quality_check m = true ↔
      (m.overall_score ≥ (8.3 : ℚ) ∨
        (m.overall_score ≥ (8.0 : ℚ) ∧ m.major_issues = [])) := by
    intro m
    unfold should_report_pass_quality_check QualityMetrics.is_high_quality
      QualityMetrics.is_acceptable_quality
    by_cases h1 : m.overall_score ≥ (8.3 : ℚ) <;>
      by_cases h2 : m.overall_score ≥ (8.0 : ℚ) <;>
        by_cases h3 : m.major_issues = [] <;>
          simp [h1, h2, h3, List.length_eq_zero]
  refine ⟨hiff, fun m m' hm hm' hle hpass => ?_, fun m h9 hni => ?_, fun m h81 hni => ?_⟩
  · rcases (hiff m).mp hpass with h | ⟨h, _⟩
    · exact (hiff m').mpr (Or.inr ⟨by linarith, hm'⟩)
    · exact (hiff m').mpr (Or.inr ⟨by linarith, hm'⟩)
  · exact (hiff m).mpr (Or.inl (by rw [h9]; norm_num))
  · by_contra hne
    have hpass : should_report_pass_quality_check m = true := by
      cases hx : should_report_pass_quality_check m
      · exact absurd hx hne
      · rfl
    rcases (hiff m).mp hpass with h | ⟨_, hempty⟩
    · rw [h81] at h; norm_num at h
    · exact hni hempty

/-- Witness for C5 at the two documented boundary examples. -/
theorem quality_gate_pass_rule_witness :
    should_report_pass_quality_check metricsNinePass = true ∧
    should_report_pass_quality_check metricsEightOneFail = false :=
  ⟨quality_gate_pass_rule.2.2.1 metricsNinePass rfl rfl,
   quality_gate_pass_rule.2.2.2 metricsEightOneFail rfl (by decide)⟩

/-- C10: evaluating a report with no word limit always reports
word_count_accuracy true, whatever the report; with a word limit the
accuracy is exactly the ±5 percent bound check on the measured size. -/
theorem no_word_limit_accuracy_true :
    (∀ (llm : String → String → EvalParsed) (report method : String) (now : Nat),
      (evaluate_report_quality llm report Option.none method now).word_count_accuracy = true) ∧
    (∀ (llm : String → String → EvalParsed) (report : String) (w : Nat)
        (method : String) (now : Nat),
      (evaluate_report_quality llm report (some w) method now).word_count_accuracy =
        (decide (w * 95 / 100 ≤ count_words report) &&
          decide (count_words report ≤ w * 105 / 100))) := by
  exact ⟨fun _ _ _ _ => rfl, fun _ _ _ _ _ => rfl⟩

/-- C9: fanning out over an outline of N distinct sections from an empty
processed_sections list yields exactly N processed entries with no
duplicates, for every concurrency bound and every completion order, and
never more entries than the outline has sections. -/
theorem fanout_processed_sections (concurrency : Nat) (_hc : 1 ≤ concurrency)
    (sections completion : List String) (hnd : sections.Nodup)
    (hord : ValidCompletionOrder [] sections completion) :
    (knowledge_retrieval_processed concurrency [] sections completion).length =
      sections.length ∧
    (knowledge_retrieval_processed concurrency [] sections completion).Nodup ∧
    (knowledge_retrieval_processed concurrency [] sections completion).length ≤
      sections.length := by
  have hsub : submitted_titles sections [] = sections := by
    simp [submitted_titles]
  have hperm : completion.Perm sections := by
    simpa [ValidCompletionOrder, hsub] using hord
  have hcond : ¬(sections ≠ [] ∧ sections.length ≤ ([] : List String).length) := by
    rintro ⟨hne, hle⟩
    exact hne (List.eq_nil_of_length_eq_zero (Nat.le_zero.mp (by simpa using hle)))
  have hres : knowledge_retrieval_processed concurrency [] sections completion =
      completion := by
    simp only [knowledge_retrieval_processed, if_neg hcond]
    simp
  rw [hres]
  exact ⟨hperm.length_eq, hperm.nodup_iff.mpr hnd, le_of_eq hperm.length_eq⟩

/-- Witness for C9 at a two-section outline completing out of order. -/
theorem fanout_processed_sections_witness :
    1 ≤ 2 ∧ (["a", "b"] : List String).Nodup ∧
    ValidCompletionOrder [] ["a", "b"] ["b", "a"] ∧
    ((knowledge_retrieval_processed 2 [] ["a", "b"] ["b", "a"]).length =
        (["a", "b"] : List String).length ∧
      (knowledge_retrieval_processed 2 [] ["a", "b"] ["b", "a"]).Nodup ∧
      (knowledge_retrieval_processed 2 [] ["a", "b"] ["b", "a"]).length ≤
        (["a", "b"] : List String).length) :=
  have hord : ValidCompletionOrder [] ["a", "b"] ["b", "a"] := List.Perm.swap "a" "b" []
  ⟨by decide, by decide, hord,
   fanout_processed_sections 2 (by decide) ["a", "b"] ["b", "a"] (by decide) hord⟩

/-! C8 is corrected: create_error_state stamps last_updated with the
transition time, but the understanding stage success paths and the inline
error paths of the revision stage copy start_time (falling back to the
previous last_updated) instead of the current time.  start_time itself is
never mutated. -/

/-- Counterexample to C8: the understanding stage completes successfully
at time 10 (it sets requirements), yet last_updated is rewound to the
start_time 5 instead of being set to the transition time. -/
theorem last_updated_stale_cex :
    (problem_understanding_node ruleOracles 10 staleState).requirements =
      some { domain := DomainCategory.GENERAL, analysis_intent := AnalysisIntent.OVERVIEW } ∧
    (problem_understanding_node ruleOracles 10 staleState).last_updated = some 5 ∧
    (problem_understanding_node ruleOracles 10 staleState).last_updated ≠ some 10 := by
  have hd : decide ((1 : ℚ) ≥ DOMAIN_CONFIDENCE_THRESHOLD) = true := by
    rw [decide_eq_true_eq]; norm_num [DOMAIN_CONFIDENCE_THRESHOLD]
  have hi : decide ((1 : ℚ) ≥ INTENT_CONFIDENCE_THRESHOLD) = true := by
    rw [decide_eq_true_eq]; norm_num [INTENT_CONFIDENCE_THRESHOLD]
  refine ⟨?_, ?_, ?_⟩ <;>
    simp [problem_understanding_node, staleState, baseState, ruleOracles, hd, hi, pyOr]

/-- C8 amended: create_error_state sets last_updated to the transition
time and preserves start_time; the understanding stage instead sets
last_updated to start_time (falling back to the old last_updated) on both
success paths, and the inline error paths of the revision stage do the
same; no embedded stage ever mutates start_time. -/
theorem last_updated_transition_behavior :
    (∀ (o : UnderstandingOracles) (now : Nat) (s : GlobalState),
      (problem_understanding_node o now s).start_time = s.start_time) ∧
    (∀ (o : UnderstandingOracles) (now : Nat) (s : GlobalState),
      s.requirements = Option.none →
      (problem_understanding_node o now s).last_updated =
        pyOr s.start_time s.last_updated) ∧
    (∀ (now : Nat) (s : GlobalState) (a : AgentName) (msg : String)
        (v : ValidationStatus),
      (create_error_state now s a msg v).last_updated = some now ∧
      (create_error_state now s a msg v).start_time = s.start_time) ∧
    (∀ (o : RevisionOracles) (now : Nat) (s : GlobalState),
      (revision_node o now s).start_time = s.start_time) ∧
    (∀ (e : String) (s : GlobalState),
      (revision_error_state e s).last_updated = pyOr s.start_time s.last_updated ∧
      (revision_error_state e s).start_time = s.start_time) := by
  refine ⟨fun o now s => ?_, fun o now s hreq => ?_, fun now s a msg v => ⟨rfl, rfl⟩,
    fun o now s => ?_, fun e s => ⟨rfl, rfl⟩⟩
  · unfold problem_understanding_node
    split
    · rfl
    · dsimp only
      split <;> rfl
  · unfold problem_understanding_node
    rw [if_neg (by simp [hreq])]
    dsimp only
    split <;> rfl
  · unfold revision_node
    dsimp only
    repeat' split
    all_goals rfl

/-- Witness for C8 amended, applied at the concrete stale state. -/
theorem last_updated_transition_behavior_witness :
    staleState.requirements = Option.none ∧
    (problem_understanding_node ruleOracles 10 staleState).last_updated =
      pyOr staleState.start_time staleState.last_updated :=
  ⟨rfl, last_updated_transition_behavior.2.1 ruleOracles 10 staleState rfl⟩

/-! C6 is corrected: the trigger of the word-count adjustment is the
revised candidate (not the kept artifact), and the corrective pass output
is discarded — final_report keeps the artifact chosen by the
keep-candidate/keep-original selection. -/

/-- On the main path of the revise stage, the final_report of the result
is the artifact chosen by the selection step (helper shared by the C6
theorems). -/
theorem revision_final_report_is_selected (o : RevisionOracles) (now : Nat)
    (s : GlobalState)
    (h1 : s.revision_count < 3)
    (h2 : ¬(s.revision_count > 0 ∧ s.validation_status ≠ ValidationStatus.NEEDS_REVISION))
    (h3 : falsyStr s.final_report = false)
    (h4 : ¬(falsyStr s.error_message ∧ s.validation_status = ValidationStatus.VALIDATED)) :
    (revision_node o now s).final_report = some (revision_selected_report o now s) := by
  unfold revision_node revision_selected_report
  rw [if_neg (by omega : ¬ s.revision_count ≥ 3), if_neg h2,
    if_neg (by simp [h3]), if_neg h4]
  dsimp only
  by_cases c1 : should_report_pass_quality_check
        (evaluate_report_quality o.evalQ
          (o.smartRevise (s.final_report.getD "")
            (evaluate_report_quality o.evalQ (s.final_report.getD "") s.word_limit
              "pre_revision" now) s.word_limit s.revision_count)
          s.word_limit "revision" now) = true ∧
      (evaluate_report_quality o.evalQ
          (o.smartRevise (s.final_report.getD "")
            (evaluate_report_quality o.evalQ (s.final_report.getD "") s.word_limit
              "pre_revision" now) s.word_limit s.revision_count)
          s.word_limit "revision" now).overall_score ≥ qmOverallScore s.quality_metrics
  · rw [if_pos c1, if_pos c1]
  · rw [if_neg c1, if_neg c1]
    by_cases c2 : (evaluate_report_quality o.evalQ
          (o.smartRevise (s.final_report.getD "")
            (evaluate_report_quality o.evalQ (s.final_report.getD "") s.word_limit
              "pre_revision" now) s.word_limit s.revision_count)
          s.word_limit "revision" now).overall_score > qmOverallScore s.quality_metrics
    · rw [if_pos c2, if_pos c2]
    · rw [if_neg c2, if_neg c2]

/-- C6 amended: on the main path of the revise stage, the resulting
final_report is exactly the artifact chosen by the selection step, and
the whole resulting state is independent of the corrective-adjustment
oracle: the single corrective pass (issued when a word limit is set and
the revised candidate fails the ±5 percent check) has its output
discarded. -/
theorem size_correction_discarded (o : RevisionOracles) (now : Nat) (s : GlobalState)
    (h1 : s.revision_count < 3)
    (h2 : ¬(s.revision_count > 0 ∧ s.validation_status ≠ ValidationStatus.NEEDS_REVISION))
    (h3 : falsyStr s.final_report = false)
    (h4 : ¬(falsyStr s.error_message ∧ s.validation_status = ValidationStatus.VALIDATED)) :
    (∀ a₁ a₂ : String → String,
      revision_node { o with adjust := a₁ } now s =
        revision_node { o with adjust := a₂ } now s) ∧
    (revision_node o now s).final_report = some (revision_selected_report o now s) :=
  ⟨fun _ _ => rfl, revision_final_report_is_selected o now s h1 h2 h3 h4⟩

/-- Counterexample to C6: the adjustment trigger fires (the revised
candidate fails the size check), yet the resulting final_report is the
original report, not the corrective pass output. -/
theorem size_correction_output_discarded_cex :
    (evaluate_report_quality cexOracles.evalQ "rev" (some 100) "revision" 0).word_count_accuracy
        = false ∧
    (revision_node cexOracles 0 cexState).final_report = some "origreport" ∧
    (revision_node cexOracles 0 cexState).final_report ≠ some (cexOracles.adjust "rev") := by
  have hsel : revision_selected_report cexOracles 0 cexState = "origreport" := by
    unfold revision_selected_report
    have hq : qmOverallScore cexState.quality_metrics = 9 := rfl
    have hpass : ¬(should_report_pass_quality_check
          (evaluate_report_quality cexOracles.evalQ
            (cexOracles.smartRevise (cexState.final_report.getD "")
              (evaluate_report_quality cexOracles.evalQ (cexState.final_report.getD "")
                cexState.word_limit "pre_revision" 0) cexState.word_limit
              cexState.revision_count)
            cexState.word_limit "revision" 0) = true ∧
        (evaluate_report_quality cexOracles.evalQ
            (cexOracles.smartRevise (cexState.final_report.getD "")
              (evaluate_report_quality cexOracles.evalQ (cexState.final_report.getD "")
                cexState.word_limit "pre_revision" 0) cexState.word_limit
              cexState.revision_count)
            cexState.word_limit "revision" 0).overall_score ≥
          qmOverallScore cexState.quality_metrics) := by
      rintro ⟨-, hge⟩
      have h5 : (evaluate_report_quality cexOracles.evalQ
            (cexOracles.smartRevise (cexState.final_report.getD "")
              (evaluate_report_quality cexOracles.evalQ (cexState.final_report.getD "")
                cexState.word_limit "pre_revision" 0) cexState.word_limit
              cexState.revision_count)
            cexState.word_limit "revision" 0).overall_score = 5 := rfl
      rw [h5, hq] at hge
      norm_num at hge
    have hgt : ¬((evaluate_report_quality cexOracles.evalQ
          (cexOracles.smartRevise (cexState.final_report.getD "")
            (evaluate_report_quality cexOracles.evalQ (cexState.final_report.getD "")
              cexState.word_limit "pre_revision" 0) cexState.word_limit
            cexState.revision_count)
          cexState.word_limit "revision" 0).overall_score >
        qmOverallScore cexState.quality_metrics) := by
      have h5 : (evaluate_report_quality cexOracles.evalQ
            (cexOracles.smartRevise (cexState.final_report.getD "")
              (evaluate_report_quality cexOracles.evalQ (cexState.final_report.getD "")
                cexState.word_limit "pre_revision" 0) cexState.word_limit
              cexState.revision_count)
            cexState.word_limit "revision" 0).overall_score = 5 := rfl
      have hq9 : qmOverallScore cexState.quality_metrics = 9 := rfl
      rw [h5, hq9]
      norm_num
    rw [if_neg hpass, if_neg hgt]
    rfl
  have hmain := revision_final_report_is_selected cexOracles 0 cexState (by decide)
    (by decide) (by decide) (by decide)
  refine ⟨by decide, ?_, ?_⟩
  · rw [hmain, hsel]
  · rw [hmain, hsel]
    intro h
    have : "origreport" = "ADJUSTED" := Option.some.inj h
    simp at this

/-- Witness for C6 amended at the concrete revision scenario. -/
theorem size_correction_discarded_witness :
    cexState.revision_count < 3 ∧
    ¬(cexState.revision_count > 0 ∧
        cexState.validation_status ≠ ValidationStatus.NEEDS_REVISION) ∧
    falsyStr cexState.final_report = false ∧
    ¬(falsyStr cexState.error_message ∧
        cexState.validation_status = ValidationStatus.VALIDATED) ∧
    ((∀ a₁ a₂ : String → String,
        revision_node { cexOracles with adjust := a₁ } 0 cexState =
          revision_node { cexOracles with adjust := a₂ } 0 cexState) ∧
      (revision_node cexOracles 0 cexState).final_report =
        some (revision_selected_report cexOracles 0 cexState)) :=
  ⟨by decide, by decide, by decide, by decide,
   size_correction_discarded cexOracles 0 cexState (by decide) (by decide) (by decide)
     (by decide)⟩

/-! C2 is corrected: reachable states (create_init_state and the stage
outputs built from it) hold their empty optional fields as explicit None
entries; serialize_state drops those entries and load restores them as
absent keys, so save-then-load is the identity only up to dropping the
None-valued entries. -/

/-- Counterexample to C2: saving and loading the freshly created initial
state does not return the same dict — the seven explicit None entries
(requirements, structure, draft_report, final_report, active_section,
error_message, processing_time) are dropped. -/
theorem checkpoint_roundtrip_not_identity :
    load_checkpoint_payload (save_checkpoint_payload 0 (create_init_state "q" 0)) ≠
      Except.ok (create_init_state "q" 0) := by
  have hwf : ∀ kv ∈ create_init_state "q" 0, WFEntry kv.1 kv.2 := by
    intro kv hkv
    simp only [create_init_state, List.mem_cons, List.not_mem_nil, or_false] at hkv
    rcases hkv with rfl | rfl | rfl | rfl | rfl | rfl | rfl | rfl | rfl | rfl | rfl | rfl |
      rfl | rfl | rfl | rfl | rfl | rfl <;>
      simp [WFEntry, isPlain, isPlainList, isPlainDict]
  have heq : load_checkpoint_payload (save_checkpoint_payload 0 (create_init_state "q" 0)) =
      .ok ((create_init_state "q" 0).filter (fun kv => !(kv.2.isNone))) := by
    unfold load_checkpoint_payload save_checkpoint_payload
    simp only [plookup, if_pos rfl]
    exact deserialize_serialize_of_WF _ hwf
  intro h
  rw [heq] at h
  have hlists := Except.ok.inj h
  have hlen := congrArg List.length hlists
  revert hlen
  decide

/-- C2 amended: for every well-formed state dict, save_checkpoint
followed by load_checkpoint returns exactly the entries whose value is
not None, each value restored bit-for-bit; None-valued entries are
omitted from the snapshot and absent after the load.  On states with no
present-but-None entries the round trip is the identity. -/
theorem checkpoint_roundtrip_drops_none (now : Nat) (s : StateDict)
    (hwf : ∀ kv ∈ s, WFEntry kv.1 kv.2) :
    load_checkpoint_payload (save_checkpoint_payload now s) =
      .ok (s.filter (fun kv => !(kv.2.isNone))) := by
  unfold load_checkpoint_payload save_checkpoint_payload
  simp only [plookup, if_pos rfl]
  exact deserialize_serialize_of_WF s hwf

/-- Witness for C2 amended at a concrete well-formed dict. -/
theorem checkpoint_roundtrip_drops_none_witness :
    (∀ kv ∈ wfSmallState, WFEntry kv.1 kv.2) ∧
    load_checkpoint_payload (save_checkpoint_payload 7 wfSmallState) =
      .ok (wfSmallState.filter (fun kv => !(kv.2.isNone))) := by
  have hwf : ∀ kv ∈ wfSmallState, WFEntry kv.1 kv.2 := by
    intro kv hkv
    simp only [wfSmallState, List.mem_cons, List.not_mem_nil, or_false] at hkv
    rcases hkv with rfl | rfl | rfl | rfl | rfl <;>
      simp [WFEntry, isPlain]
  exact ⟨hwf, checkpoint_roundtrip_drops_none 7 wfSmallState hwf⟩

/-! C3 is corrected: save_checkpoint performs one direct write of the
payload to the target path — no temporary file and no rename — so an
interruption mid-write can leave a truncated snapshot at the target. -/

/-- Counterexample to C3: the trace of save_checkpoint neither follows
the write-to-temporary-then-rename discipline nor protects the target
from truncation — stopping inside its single write leaves a truncated
file where the previous snapshot was. -/
theorem save_checkpoint_not_atomic :
    ¬ WritesViaTempRename
        (save_checkpoint_ops (create_init_state "q" 1) 1 "checkpoint.json")
        "checkpoint.json" ∧
    ¬ NeverTruncatesTarget
        (save_checkpoint_ops (create_init_state "q" 1) 1 "checkpoint.json")
        "checkpoint.json" := by
  constructor
  · rintro ⟨tmp, content, hne, heq⟩
    have hlen := congrArg List.length heq
    simp [save_checkpoint_ops] at hlen
  · intro hnt
    apply hnt fsWithOldSnapshot
      (fsSet fsWithOldSnapshot "checkpoint.json" FileContent.truncated)
    · simp [save_checkpoint_ops, crashStates]
    · simp [fsSet, fsWithOldSnapshot, List.lookup]

/-- C3 amended: for every state, save time and path, save_checkpoint
performs exactly one direct write of the payload to the target path, and
from any starting file system the crash semantics reaches a state where
the target file is truncated mid-write. -/
theorem save_checkpoint_single_direct_write (state : StateDict) (now : Nat) (path : String) :
    save_checkpoint_ops state now path =
      [FsOp.write path (save_checkpoint_payload now state)] ∧
    ∀ fs₀ : Fs, fsSet fs₀ path FileContent.truncated ∈
      crashStates (save_checkpoint_ops state now path) fs₀ := by
  refine ⟨rfl, fun fs₀ => ?_⟩
  simp [save_checkpoint_ops, crashStates]

/-- C7: the analysis-intent coercion of the checkpoint loader maps every
documented alias to the member carrying its canonical tag, never raises
for any string (any requirements snapshot deserializes whatever intent
spelling it holds), defaults unknown spellings to OVERVIEW, and a
genuinely unrecognized enumerated value elsewhere (validation_status) is
a fatal deserialization error. -/
theorem load_tolerates_intent_aliases :
    (∀ p ∈ alias_map, (coerce_analysis_intent p.1).value = p.2) ∧
    (∀ s : String,
      deserialize_state [("requirements",
          .dict [("domain", .str DomainCategory.GENERAL.value),
                 ("analysis_intent", .str s)])] =
        .ok [("requirements",
          .aquery { domain := DomainCategory.GENERAL,
                    analysis_intent := coerce_analysis_intent s })]) ∧
    coerce_analysis_intent "garbage-intent" = AnalysisIntent.OVERVIEW ∧
    (∃ e, deserialize_state [("validation_status", .str "Validated!")] = .error e) := by
  refine ⟨by decide, fun s => ?_, rfl, ⟨"ValueError: ValidationStatus", rfl⟩⟩
  have h2 : AnalysisIntent.fromValue? (coerce_analysis_intent s).value =
      some (coerce_analysis_intent s) := intent_fromValue_of_value _
  simp only [deserialize_state, fromSerializable, buildAnalysisQuery, hasKey, dictSetP,
    plookup, coerce_analysis_intent_val]
  simp [h2, DomainCategory.value, DomainCategory.fromValue?, Bind.bind, Except.bind,
    Except.map, Pure.pure, Except.pure]

/-- Witness for C7 at the alias 概览 (one of the documented spellings of
overview). -/
theorem load_tolerates_intent_aliases_witness :
    ("概览", "overview") ∈ alias_map ∧
    (coerce_analysis_intent "概览").value = "overview" :=
  ⟨by decide, load_tolerates_intent_aliases.1 ("概览", "overview") (by decide)⟩
